import Mathlib

/-!
Verification of the money-field library (`moneyfield/fields.py`): a composite
"money" field binding a decimal amount and a 3-letter currency code as one
logical attribute backed by one or two storage columns, together with its
configuration-time validation and form-field rebuilding.

The embedding below follows the Python source. Decimal amounts are modelled
as rationals (only equality of amounts matters to the claims), Python `None`
as `Option.none`, exceptions as `Except` results, and the object dictionary
slots touched by the descriptors as an explicit `Storage` record.
-/

namespace Moneyfield

/-- Decimal amounts; the claims only compare amounts for equality. -/
abbrev Decimal := Rat

/-- A `money.Money` value: the library constructor always stores an amount
and a currency string, so neither component is ever null. -/
structure Money where
  amount : Decimal
  currency : String
deriving DecidableEq, Repr

/-- Exceptions raised by the library, tagged with their Python class. -/
inductive PyError where
  | typeError (msg : String)
  | fieldError (msg : String)
  | validationError (msg : String)
deriving DecidableEq, Repr

/-- A Python value assigned to the logical money attribute: a `Money`,
`None`, a `decimal.Decimal`, or a value of any other type. -/
inductive PyValue where
  | moneyVal (m : Money)
  | pyNone
  | decimalVal (d : Decimal)
  | otherVal (descr : String)
deriving DecidableEq, Repr

/-- Python truthiness of the `currency` / `self.fixed_currency` option:
`None` and the empty string are falsy. -/
def truthyCurrency : Option String → Bool
  | Option.none => false
  | some c => !c.isEmpty

/-- Python truthiness of the `currency_choices` option: `None` and an empty
choice list are falsy. -/
def truthyChoices : Option (List String) → Bool
  | Option.none => false
  | some l => !l.isEmpty

/-- A keyword argument that may be left at Django's `NOT_PROVIDED` marker. -/
inductive Provided (α : Type) where
  | notProvided
  | provided (a : α)
deriving DecidableEq, Repr

/-- The part of a `MoneyField`'s configuration that the descriptor proxies
read: `self.field.name`, `self.field.fixed_currency`, `self.field.amount_proxy`. -/
structure FieldCfg where
  name : String
  fixed_currency : Option String
  amount_proxy : Bool
deriving DecidableEq, Repr

/-- The two object-dictionary slots a money descriptor may touch:
`obj.__dict__[amount_attr]` and `obj.__dict__[currency_attr]`.  For a
fixed-currency field only the amount slot is ever read or written. -/
structure Storage where
  amount : Option Decimal
  currency : Option String
deriving DecidableEq, Repr

/-- Method `_get_values`: `SimpleMoneyProxy` (installed when `fixed_currency` is
truthy) returns the stored amount paired with the field's fixed currency;
`CompositeMoneyProxy` returns both stored slots. -/
def getValues (f : FieldCfg) (s : Storage) : Option Decimal × Option String :=
  if truthyCurrency f.fixed_currency then
    (s.amount, f.fixed_currency)
  else
    (s.amount, s.currency)

/-- Method `AbstractMoneyProxy.__get__` on a model instance: `None` when the amount
or the currency is `None`, otherwise `MoneyLC(amount, currency)`. -/
def proxyGet (f : FieldCfg) (s : Storage) : Option Money :=
  match getValues f s with
  | (some a, some c) => some ⟨a, c⟩
  | _ => Option.none

/-- A `_set_values` call: either the updated storage, or an exception paired
with the storage as it stands when the exception is raised. -/
abbrev SetResult := Except (PyError × Storage) Storage

/-- Method `_set_values` as dispatched by the installed proxy.
`SimpleMoneyProxy._set_values` rejects a non-`None` currency different from
the fixed one before touching the amount slot, then writes only the amount
slot; `CompositeMoneyProxy._set_values` writes both slots. -/
def setValuesDispatch (f : FieldCfg) (s : Storage)
    (amount : Option Decimal) (currency : Option String) : SetResult :=
  if truthyCurrency f.fixed_currency then
    match currency with
    | some c =>
        if some c = f.fixed_currency then
          Except.ok { s with amount := amount }
        else
          Except.error (PyError.typeError "currency-only field", s)
    | Option.none => Except.ok { s with amount := amount }
  else
    Except.ok { amount := amount, currency := currency }

/-- Method `AbstractMoneyProxy.__set__`: a `Money` forwards its amount and currency,
`None` forwards two `None`s, a `Decimal` is accepted only on a fixed-currency
field with `amount_proxy=False` (forwarded with the default `currency=None`),
and anything else raises `TypeError` immediately. -/
def proxySet (f : FieldCfg) (s : Storage) (v : PyValue) : SetResult :=
  match v with
  | PyValue.moneyVal m => setValuesDispatch f s (some m.amount) (some m.currency)
  | PyValue.pyNone => setValuesDispatch f s Option.none Option.none
  | PyValue.decimalVal d =>
      if truthyCurrency f.fixed_currency && !f.amount_proxy then
        setValuesDispatch f s (some d) Option.none
      else
        Except.error (PyError.typeError "cannot assign", s)
  | PyValue.otherVal _ =>
      Except.error (PyError.typeError "cannot assign", s)

/-- The currency component `_get_values` pairs with the stored amount: the
field's fixed currency on a fixed-currency field, the stored currency slot
otherwise. -/
def storedCurrency (f : FieldCfg) (s : Storage) : Option String :=
  (getValues f s).2

/-- A value the claim C4 calls invalid for assignment: wrong type (not a
`Money`, not `None`, and not a `Decimal` on a fixed-currency field with
`amount_proxy=False`), or a `Money` whose currency differs from the field's
fixed currency. -/
def invalidAssign (f : FieldCfg) (v : PyValue) : Prop :=
  (match v with
   | PyValue.moneyVal m =>
       truthyCurrency f.fixed_currency = true ∧ some m.currency ≠ f.fixed_currency
   | PyValue.pyNone => False
   | PyValue.decimalVal _ =>
       ¬ (truthyCurrency f.fixed_currency = true ∧ f.amount_proxy = false)
   | PyValue.otherVal _ => True)

instance (f : FieldCfg) (v : PyValue) : Decidable (invalidAssign f v) := by
  unfold invalidAssign
  match v with
  | PyValue.moneyVal m => exact inferInstanceAs (Decidable (_ ∧ _))
  | PyValue.pyNone => exact inferInstanceAs (Decidable False)
  | PyValue.decimalVal d => exact inferInstanceAs (Decidable (¬ _))
  | PyValue.otherVal s => exact inferInstanceAs (Decidable True)

/-- The amount column: a `MoneyDecimalField` (a `DecimalField`) built with
the field's precision arguments and the resolved amount default. -/
structure DecimalFieldCol where
  decimal_places : Int
  max_digits : Int
  default : Provided Decimal
deriving DecidableEq, Repr

/-- The currency column: a `CharField(max_length=3, default=currency_default,
choices=currency_choices, ...)`. -/
structure CharFieldCol where
  max_length : Nat
  default : Provided String
  choices : Option (List String)
deriving DecidableEq, Repr

/-- The state of a successfully constructed `MoneyField`: `currency_field`
is present exactly when `__init__` created one. -/
structure MoneyFieldObj where
  fixed_currency : Option String
  amount_proxy : Bool
  amount_field : DecimalFieldCol
  currency_field : Option CharFieldCol
deriving DecidableEq, Repr

/-- Whether a keyword argument was passed (differs from `NOT_PROVIDED`). -/
def isProvided {α : Type} : Provided α → Bool
  | Provided.notProvided => false
  | Provided.provided _ => true

/-- Check `decimal_places is None or decimal_places < 0`. -/
def badDecimalPlaces : Option Int → Bool
  | Option.none => true
  | some dp => dp < 0

/-- Check `max_digits is None or max_digits <= 0`. -/
def badMaxDigits : Option Int → Bool
  | Option.none => true
  | some md => md ≤ 0

/-- Lines 327-352 of `fields.py`: resolve the `default` keyword into the
amount and currency defaults.  A `Money` default must match a fixed currency
and must not be combined with `amount_default` or `currency_default`; it is
then decomposed.  A provided non-`Money` default raises `TypeError`. -/
def resolveDefaults (currency : Option String) (default : Provided PyValue)
    (amount_default : Provided Decimal) (currency_default : Provided String) :
    Except PyError (Provided Decimal × Provided String) :=
  match default with
  | Provided.notProvided => Except.ok (amount_default, currency_default)
  | Provided.provided v =>
    match v with
    | PyValue.moneyVal m =>
        if truthyCurrency currency && !(currency = some m.currency : Bool) then
          Except.error (PyError.fieldError "default not compatible with fixed currency")
        else if isProvided amount_default then
          Except.error (PyError.fieldError "do not use amount_default with default")
        else if isProvided currency_default then
          Except.error (PyError.fieldError "do not use currency_default with default")
        else
          Except.ok (Provided.provided m.amount, Provided.provided m.currency)
    | _ => Except.error (PyError.typeError "default must be of type Money")

/-- Constructor `MoneyField.__init__`: precision pre-validation, the fixed-vs-variable
currency conflict check, default resolution, then construction of the amount
column and — only when the currency is variable — the currency column. -/
def MoneyField.init
    (max_digits : Option Int) (decimal_places : Option Int)
    (currency : Option String) (currency_choices : Option (List String))
    (currency_default : Provided String)
    (default : Provided PyValue)
    (amount_default : Provided Decimal)
    (amount_proxy : Bool) : Except PyError MoneyFieldObj :=
  match decimal_places with
  | Option.none =>
      Except.error (PyError.fieldError "non-negative decimal_places required")
  | some dp =>
  if dp < 0 then
    Except.error (PyError.fieldError "non-negative decimal_places required")
  else match max_digits with
  | Option.none => Except.error (PyError.fieldError "positive max_digits required")
  | some md =>
  if md ≤ 0 then
    Except.error (PyError.fieldError "positive max_digits required")
  else if truthyCurrency currency &&
      (truthyChoices currency_choices || isProvided currency_default) then
    Except.error (PyError.fieldError "fixed currency excludes currency options")
  else match resolveDefaults currency default amount_default currency_default with
  | Except.error e => Except.error e
  | Except.ok (aDft, cDft) =>
      Except.ok
        { fixed_currency := currency
          amount_proxy := amount_proxy
          amount_field := { decimal_places := dp, max_digits := md, default := aDft }
          currency_field :=
            if truthyCurrency currency then Option.none
            else some { max_length := 3, default := cDft, choices := currency_choices } }

/-- A physical column added to the model class. -/
inductive Column where
  | decimalCol (d : DecimalFieldCol)
  | charCol (c : CharFieldCol)
deriving DecidableEq, Repr

/-- Which descriptor `contribute_to_class` installs under the logical name. -/
inductive ProxyKind where
  | simple
  | composite
deriving DecidableEq, Repr

/-- The attribute mapping `contribute_to_class` establishes. -/
structure ContributeResult where
  amount_attr : String
  currency_attr : Option String
  addedColumns : List (String × Column)
  proxy : ProxyKind
deriving DecidableEq, Repr

/-- Method `MoneyField.contribute_to_class`: the amount column is added under the
field's own name when the currency is fixed and `amount_proxy` is off,
otherwise under `name + "_amount"`; a currency column and a composite proxy
are added only when the currency is variable, else `currency_attr` is `None`
and a simple proxy is installed. -/
def MoneyFieldObj.contribute_to_class (f : MoneyFieldObj) (name : String) :
    ContributeResult :=
  let amount_attr :=
    if truthyCurrency f.fixed_currency && !f.amount_proxy then name
    else name ++ "_amount"
  if truthyCurrency f.fixed_currency then
    { amount_attr := amount_attr
      currency_attr := Option.none
      addedColumns := [(amount_attr, Column.decimalCol f.amount_field)]
      proxy := ProxyKind.simple }
  else
    { amount_attr := amount_attr
      currency_attr := some (name ++ "_currency")
      addedColumns := (amount_attr, Column.decimalCol f.amount_field) ::
        (match f.currency_field with
         | some cf => [(name ++ "_currency", Column.charCol cf)]
         | Option.none => [])
      proxy := ProxyKind.composite }

/-- Method `_get_values` always pairs the stored amount with `storedCurrency`. -/
theorem getValues_eq (f : FieldCfg) (s : Storage) :
    getValues f s = (s.amount, storedCurrency f s) := by
  unfold storedCurrency getValues
  by_cases h : truthyCurrency f.fixed_currency = true <;> simp [h]

/-- C1: reading the logical money attribute returns `None` exactly when the
stored amount or the stored currency is `None`; otherwise it returns a
`Money` whose amount is the stored amount and whose currency is the stored
currency (on a fixed-currency field, the field's fixed currency). -/
theorem moneyProxy_get_spec (f : FieldCfg) (s : Storage) :
    (proxyGet f s = Option.none ↔
      (s.amount = Option.none ∨ storedCurrency f s = Option.none)) ∧
    (∀ m : Money, proxyGet f s = some m →
      some m.amount = s.amount ∧ some m.currency = storedCurrency f s) := by
  unfold proxyGet
  rw [getValues_eq]
  rcases hA : s.amount with _ | a <;> rcases hC : storedCurrency f s with _ | c <;>
    constructor <;> simp_all

/-- C2: on a variable-currency field, every successful assignment leaves the
two storage slots null together or non-null together: assigning `None` nulls
both, assigning a `Money` stores its amount and its currency. -/
theorem composite_set_null_invariant (f : FieldCfg) (s s' : Storage) (v : PyValue)
    (hvar : truthyCurrency f.fixed_currency = false)
    (hok : proxySet f s v = Except.ok s') :
    (s'.amount = Option.none ↔ s'.currency = Option.none) ∧
    (v = PyValue.pyNone → s'.amount = Option.none ∧ s'.currency = Option.none) ∧
    (∀ m : Money, v = PyValue.moneyVal m →
      s'.amount = some m.amount ∧ s'.currency = some m.currency) := by
  cases v <;> simp [proxySet, setValuesDispatch, hvar] at hok <;> simp [← hok]

/-- C2 witness: assigning `None` on a concrete variable-currency field. -/
theorem composite_set_null_invariant_witness :
    ((⟨Option.none, Option.none⟩ : Storage).amount = Option.none ∧
     (⟨Option.none, Option.none⟩ : Storage).currency = Option.none) :=
  (composite_set_null_invariant ⟨"price", Option.none, true⟩
    ⟨some 1, some "EUR"⟩ ⟨Option.none, Option.none⟩ PyValue.pyNone rfl rfl).2.1 rfl

/-- C3: on a variable-currency field, assigning a `Money` value succeeds and
a subsequent read returns that same amount/currency pair. -/
theorem composite_set_get_roundtrip (f : FieldCfg) (s : Storage) (m : Money)
    (hvar : truthyCurrency f.fixed_currency = false) :
    proxySet f s (PyValue.moneyVal m) =
      Except.ok ⟨some m.amount, some m.currency⟩ ∧
    proxyGet f ⟨some m.amount, some m.currency⟩ = some m := by
  constructor
  · simp [proxySet, setValuesDispatch, hvar]
  · simp [proxyGet, getValues, hvar]

/-- C3 witness: round trip at a concrete field, storage and money value. -/
theorem composite_set_get_roundtrip_witness :
    proxySet ⟨"price", Option.none, true⟩ ⟨Option.none, Option.none⟩
      (PyValue.moneyVal ⟨1, "EUR"⟩) = Except.ok ⟨some 1, some "EUR"⟩ ∧
    proxyGet ⟨"price", Option.none, true⟩ ⟨some 1, some "EUR"⟩ =
      some ⟨1, "EUR"⟩ :=
  composite_set_get_roundtrip ⟨"price", Option.none, true⟩
    ⟨Option.none, Option.none⟩ ⟨1, "EUR"⟩ rfl

/-- C4: assigning an invalid value (wrong type, or a `Money` whose currency
differs from the field's fixed currency) raises `TypeError` at once and
leaves both storage slots unchanged. -/
theorem assign_invalid_raises (f : FieldCfg) (s : Storage) (v : PyValue)
    (hbad : invalidAssign f v) :
    ∃ msg, proxySet f s v = Except.error (PyError.typeError msg, s) := by
  cases v with
  | moneyVal m =>
      obtain ⟨ht, hne⟩ := hbad
      refine ⟨"currency-only field", ?_⟩
      simp [proxySet, setValuesDispatch, ht, hne]
  | pyNone => exact absurd hbad (by simp [invalidAssign])
  | decimalVal d =>
      refine ⟨"cannot assign", ?_⟩
      rcases ht : truthyCurrency f.fixed_currency <;>
        rcases hap : f.amount_proxy <;>
        simp_all [proxySet, invalidAssign, setValuesDispatch]
  | otherVal descr => exact ⟨"cannot assign", rfl⟩

/-- C4 witness: a `Money` in USD assigned to a EUR-only field errors with the
storage untouched. -/
theorem assign_invalid_raises_witness :
    ∃ msg, proxySet ⟨"price", some "EUR", true⟩ ⟨some 2, Option.none⟩
      (PyValue.moneyVal ⟨1, "USD"⟩) =
      Except.error (PyError.typeError msg, ⟨some 2, Option.none⟩) :=
  assign_invalid_raises ⟨"price", some "EUR", true⟩ ⟨some 2, Option.none⟩
    (PyValue.moneyVal ⟨1, "USD"⟩) (by constructor <;> decide)

/-- Shape of a field object `__init__` builds successfully: it keeps the
`currency` and `amount_proxy` arguments, and it owns a currency column —
a 3-character one carrying the choice list — exactly when the currency is
variable. -/
theorem init_ok_shape
    (md dpl : Option Int) (cur : Option String) (ch : Option (List String))
    (cdef : Provided String) (dflt : Provided PyValue) (adef : Provided Decimal)
    (ap : Bool) (f : MoneyFieldObj)
    (hok : MoneyField.init md dpl cur ch cdef dflt adef ap = Except.ok f) :
    f.fixed_currency = cur ∧ f.amount_proxy = ap ∧
    (truthyCurrency cur = true → f.currency_field = Option.none) ∧
    (truthyCurrency cur = false →
      ∃ cDft, f.currency_field = some ⟨3, cDft, ch⟩) := by
  unfold MoneyField.init at hok
  split at hok
  · simp at hok
  · split at hok
    · simp at hok
    · split at hok
      · simp at hok
      · split at hok
        · simp at hok
        · split at hok
          · simp at hok
          · split at hok
            · simp at hok
            · rw [Except.ok.injEq] at hok
              subst hok
              refine ⟨rfl, rfl, ?_, ?_⟩ <;> intro h <;> simp [h]

/-- C5: attaching a field under name `n` maps the amount to a decimal column
named `n + "_amount"` (or `n` itself for a fixed-currency field with
`amount_proxy=False`); a second, 3-character currency column named
`n + "_currency"` is added exactly when the currency is variable, and on a
fixed-currency field `currency_attr` is `None` and only the amount column is
added. -/
theorem contribute_to_class_mapping
    (md dpl : Option Int) (cur : Option String) (ch : Option (List String))
    (cdef : Provided String) (dflt : Provided PyValue) (adef : Provided Decimal)
    (ap : Bool) (f : MoneyFieldObj) (n : String)
    (hok : MoneyField.init md dpl cur ch cdef dflt adef ap = Except.ok f) :
    ((f.contribute_to_class n).amount_attr =
      if truthyCurrency f.fixed_currency = true ∧ f.amount_proxy = false then n
      else n ++ "_amount") ∧
    (truthyCurrency f.fixed_currency = false →
      (f.contribute_to_class n).currency_attr = some (n ++ "_currency") ∧
      ∃ cf : CharFieldCol, cf.max_length = 3 ∧
        (f.contribute_to_class n).addedColumns =
          [((f.contribute_to_class n).amount_attr, Column.decimalCol f.amount_field),
           (n ++ "_currency", Column.charCol cf)]) ∧
    (truthyCurrency f.fixed_currency = true →
      (f.contribute_to_class n).currency_attr = Option.none ∧
      (f.contribute_to_class n).addedColumns =
        [((f.contribute_to_class n).amount_attr, Column.decimalCol f.amount_field)]) := by
  obtain ⟨hfc, hap, hfix, hvar⟩ := init_ok_shape md dpl cur ch cdef dflt adef ap f hok
  subst hfc
  unfold MoneyFieldObj.contribute_to_class
  by_cases h : truthyCurrency f.fixed_currency = true
  · rcases hap2 : f.amount_proxy <;> simp [h, hap2]
  · rw [eq_false_of_ne_true h] at hvar
    obtain ⟨cDft, hcf⟩ := hvar rfl
    rcases hap2 : f.amount_proxy <;> simp [h, hap2, hcf]

/-- C5 witness: a variable-currency field attached as "price", and a
fixed-currency field with `amount_proxy=False` attached as "price". -/
theorem contribute_to_class_mapping_witness :
    ((({ fixed_currency := Option.none, amount_proxy := true,
         amount_field := ⟨2, 8, Provided.notProvided⟩,
         currency_field := some ⟨3, Provided.notProvided, Option.none⟩ } :
        MoneyFieldObj).contribute_to_class "price").amount_attr =
      if truthyCurrency (Option.none : Option String) = true ∧ (true : Bool) = false
      then "price" else "price" ++ "_amount") :=
  (contribute_to_class_mapping (some 8) (some 2) Option.none Option.none
    Provided.notProvided Provided.notProvided Provided.notProvided true
    { fixed_currency := Option.none, amount_proxy := true,
      amount_field := ⟨2, 8, Provided.notProvided⟩,
      currency_field := some ⟨3, Provided.notProvided, Option.none⟩ }
    "price" rfl).1

/-- C7: a fixed currency combined with truthy `currency_choices` or a
provided `currency_default` makes construction fail with a `FieldError`
(whatever the other arguments are). -/
theorem fixed_variable_conflict
    (md dpl : Option Int) (cur : Option String) (ch : Option (List String))
    (cdef : Provided String) (dflt : Provided PyValue) (adef : Provided Decimal)
    (ap : Bool)
    (hcur : truthyCurrency cur = true)
    (hvar : truthyChoices ch = true ∨ cdef ≠ Provided.notProvided) :
    ∃ msg, MoneyField.init md dpl cur ch cdef dflt adef ap =
      Except.error (PyError.fieldError msg) := by
  have hcond : (truthyCurrency cur &&
      (truthyChoices ch || isProvided cdef)) = true := by
    rcases hvar with h | h
    · simp [hcur, h]
    · have hp : isProvided cdef = true := by
        cases cdef
        · exact absurd rfl h
        · rfl
      simp [hcur, hp]

  unfold MoneyField.init
  simp only [hcond, Bool.true_and, Bool.and_true, if_true]
  repeat' split
  all_goals exact ⟨_, rfl⟩

/-- C7 witness: a EUR-fixed field also given currency choices. -/
theorem fixed_variable_conflict_witness :
    ∃ msg, MoneyField.init (some 8) (some 2) (some "EUR")
      (some ["EUR", "USD"]) Provided.notProvided Provided.notProvided
      Provided.notProvided true = Except.error (PyError.fieldError msg) :=
  fixed_variable_conflict (some 8) (some 2) (some "EUR") (some ["EUR", "USD"])
    Provided.notProvided Provided.notProvided Provided.notProvided true
    rfl (Or.inl rfl)

/-- C9: missing or negative `decimal_places`, or missing or non-positive
`max_digits`, makes construction fail with a `FieldError`. -/
theorem precision_required
    (md dpl : Option Int) (cur : Option String) (ch : Option (List String))
    (cdef : Provided String) (dflt : Provided PyValue) (adef : Provided Decimal)
    (ap : Bool)
    (hbad : badDecimalPlaces dpl = true ∨ badMaxDigits md = true) :
    ∃ msg, MoneyField.init md dpl cur ch cdef dflt adef ap =
      Except.error (PyError.fieldError msg) := by
  unfold MoneyField.init
  split
  · exact ⟨_, rfl⟩
  · rename_i dp
    by_cases hdp : dp < 0
    · rw [if_pos hdp]
      exact ⟨_, rfl⟩
    · rw [if_neg hdp]
      have hmd : badMaxDigits md = true := by
        rcases hbad with h | h
        · exact absurd h (by simp [badDecimalPlaces, hdp])
        · exact h
      split
      · exact ⟨_, rfl⟩
      · rename_i m
        rw [if_pos (by simpa [badMaxDigits] using hmd)]
        exact ⟨_, rfl⟩

/-- C9 witness: `decimal_places` left `None`. -/
theorem precision_required_witness :
    ∃ msg, MoneyField.init (some 8) Option.none Option.none Option.none
      Provided.notProvided Provided.notProvided Provided.notProvided true =
      Except.error (PyError.fieldError msg) :=
  precision_required (some 8) Option.none Option.none Option.none
    Provided.notProvided Provided.notProvided Provided.notProvided true
    (Or.inl rfl)

/-- A `Money` default whose currency differs from a truthy fixed currency is
rejected with a `FieldError` by the default-resolution step. -/
theorem resolveDefaults_mismatch (cur : Option String) (adef : Provided Decimal)
    (cdef : Provided String) (m : Money)
    (ht : truthyCurrency cur = true) (hne : cur ≠ some m.currency) :
    resolveDefaults cur (Provided.provided (PyValue.moneyVal m)) adef cdef =
      Except.error (PyError.fieldError "default not compatible with fixed currency") := by
  unfold resolveDefaults
  simp [ht, hne]

/-- A provided default that is not a `Money` is rejected with a `TypeError`
by the default-resolution step. -/
theorem resolveDefaults_nonmoney (cur : Option String) (adef : Provided Decimal)
    (cdef : Provided String) (v : PyValue)
    (hv : ∀ m : Money, v ≠ PyValue.moneyVal m) :
    resolveDefaults cur (Provided.provided v) adef cdef =
      Except.error (PyError.typeError "default must be of type Money") := by
  cases v with
  | moneyVal m => exact absurd rfl (hv m)
  | pyNone => rfl
  | decimalVal d => rfl
  | otherVal descr => rfl

/-- When default resolution of a `Money` default succeeds, it yields exactly
the money's amount and currency as the column defaults. -/
theorem resolveDefaults_money_ok (cur : Option String) (adef : Provided Decimal)
    (cdef : Provided String) (m : Money) (p : Provided Decimal × Provided String)
    (h : resolveDefaults cur (Provided.provided (PyValue.moneyVal m)) adef cdef =
      Except.ok p) :
    p = (Provided.provided m.amount, Provided.provided m.currency) := by
  unfold resolveDefaults at h
  repeat' split at h
  all_goals simp_all

/-- C8: a `Money` default whose currency differs from the field's fixed
currency raises a `FieldError`; a provided non-`Money` default raises a
`TypeError` (once the earlier configuration checks pass); a compatible
`Money` default is decomposed into the amount column's default and, where a
currency column exists, that column's default. -/
theorem money_default_handling
    (md dpl : Option Int) (cur : Option String) (ch : Option (List String))
    (cdef : Provided String) (adef : Provided Decimal) (ap : Bool) (v : PyValue) :
    (∀ m : Money, v = PyValue.moneyVal m → truthyCurrency cur = true →
      cur ≠ some m.currency →
      ∃ msg, MoneyField.init md dpl cur ch cdef (Provided.provided v) adef ap =
        Except.error (PyError.fieldError msg)) ∧
    ((∀ m : Money, v ≠ PyValue.moneyVal m) →
      badDecimalPlaces dpl = false → badMaxDigits md = false →
      (truthyCurrency cur && (truthyChoices ch || isProvided cdef)) = false →
      ∃ msg, MoneyField.init md dpl cur ch cdef (Provided.provided v) adef ap =
        Except.error (PyError.typeError msg)) ∧
    (∀ (m : Money) (f : MoneyFieldObj), v = PyValue.moneyVal m →
      MoneyField.init md dpl cur ch cdef (Provided.provided v) adef ap =
        Except.ok f →
      f.amount_field.default = Provided.provided m.amount ∧
      (∀ cf : CharFieldCol, f.currency_field = some cf →
        cf.default = Provided.provided m.currency)) := by
  refine ⟨?_, ?_, ?_⟩
  · intro m hv ht hne
    subst hv
    have hres := resolveDefaults_mismatch cur adef cdef m ht hne
    unfold MoneyField.init
    simp only [hres]
    repeat' split
    all_goals exact ⟨_, rfl⟩
  · intro hv hdp hmd hcc
    have hres := resolveDefaults_nonmoney cur adef cdef v hv
    refine ⟨"default must be of type Money", ?_⟩
    rcases dpl with _ | dp
    · simp [badDecimalPlaces] at hdp
    · rcases md with _ | m0
      · simp [badMaxDigits] at hmd
      · have hdp2 : ¬(dp < 0) := by simpa [badDecimalPlaces] using hdp
        have hmd2 : ¬(m0 ≤ 0) := by simpa [badMaxDigits] using hmd
        unfold MoneyField.init
        simp [hres, hdp2, hmd2, hcc]
  · intro m f hv hok
    subst hv
    unfold MoneyField.init at hok
    split at hok
    · simp at hok
    · split at hok
      · simp at hok
      · split at hok
        · simp at hok
        · split at hok
          · simp at hok
          · split at hok
            · simp at hok
            · split at hok
              · simp at hok
              · rename_i aDft cDft heq
                have hp := resolveDefaults_money_ok cur adef cdef m (aDft, cDft) heq
                rw [Prod.mk.injEq] at hp
                obtain ⟨ha, hc⟩ := hp
                rw [Except.ok.injEq] at hok
                subst hok
                constructor
                · simpa using ha
                · intro cf hcf
                  by_cases htc : truthyCurrency cur = true <;> simp [htc] at hcf
                  rw [← hcf]
                  simpa using hc

/-- C8 witness: an incompatible USD default on a EUR-only field errors, a
`Decimal` default errors with `TypeError`, and a compatible EUR default on a
variable-currency field lands in both column defaults. -/
theorem money_default_handling_witness :
    (∃ msg, MoneyField.init (some 8) (some 2) (some "EUR") Option.none
      Provided.notProvided (Provided.provided (PyValue.moneyVal ⟨1, "USD"⟩))
      Provided.notProvided true = Except.error (PyError.fieldError msg)) ∧
    (∃ msg, MoneyField.init (some 8) (some 2) Option.none Option.none
      Provided.notProvided (Provided.provided (PyValue.decimalVal 3))
      Provided.notProvided true = Except.error (PyError.typeError msg)) ∧
    (({ fixed_currency := Option.none, amount_proxy := true,
        amount_field := ⟨2, 8, Provided.provided 1⟩,
        currency_field := some ⟨3, Provided.provided "EUR", Option.none⟩ } :
        MoneyFieldObj).amount_field.default = Provided.provided 1 ∧
      (CharFieldCol.mk 3 (Provided.provided "EUR") Option.none).default =
        Provided.provided "EUR") := by
  refine ⟨?_, ?_, ?_, ?_⟩
  · exact (money_default_handling (some 8) (some 2) (some "EUR") Option.none
      Provided.notProvided Provided.notProvided true
      (PyValue.moneyVal ⟨1, "USD"⟩)).1 ⟨1, "USD"⟩ rfl rfl (by decide)
  · exact (money_default_handling (some 8) (some 2) Option.none Option.none
      Provided.notProvided Provided.notProvided true
      (PyValue.decimalVal 3)).2.1
      (fun m h => PyValue.noConfusion h) rfl rfl rfl
  · exact ((money_default_handling (some 8) (some 2) Option.none Option.none
      Provided.notProvided Provided.notProvided true
      (PyValue.moneyVal ⟨1, "EUR"⟩)).2.2 ⟨1, "EUR"⟩
      { fixed_currency := Option.none, amount_proxy := true,
        amount_field := ⟨2, 8, Provided.provided 1⟩,
        currency_field := some ⟨3, Provided.provided "EUR", Option.none⟩ }
      rfl rfl).1
  · exact ((money_default_handling (some 8) (some 2) Option.none Option.none
      Provided.notProvided Provided.notProvided true
      (PyValue.moneyVal ⟨1, "EUR"⟩)).2.2 ⟨1, "EUR"⟩
      { fixed_currency := Option.none, amount_proxy := true,
        amount_field := ⟨2, 8, Provided.provided 1⟩,
        currency_field := some ⟨3, Provided.provided "EUR", Option.none⟩ }
      rfl rfl).2 ⟨3, Provided.provided "EUR", Option.none⟩ rfl

/-- A Python string object: `id` stands for the object's identity (what
`is` compares), `val` for its text (what `==` compares). -/
structure PyStr where
  id : Nat
  val : String
deriving DecidableEq, Repr

/-- Class `FixedCurrencyFormField`: it keeps the very currency object it was
constructed with. -/
structure FixedCurrencyFormField where
  currency : PyStr
deriving DecidableEq, Repr

/-- Method `FixedCurrencyFormField.validate`: `if value is not self.currency` — an
object-identity test, not an equality test — `raise ValidationError`. -/
def FixedCurrencyFormField.validate (fld : FixedCurrencyFormField)
    (value : PyStr) : Except PyError Unit :=
  if value.id = fld.currency.id then Except.ok ()
  else Except.error (PyError.validationError "Invalid currency")

/-- C10: `validate` accepts exactly the identical currency object; any other
object — a distinct string with the same text included — is rejected with a
`ValidationError`. -/
theorem fixed_currency_validate_identity
    (fld : FixedCurrencyFormField) (value : PyStr) :
    (fld.validate value = Except.ok () ↔ value.id = fld.currency.id) ∧
    (value.id ≠ fld.currency.id →
      ∃ msg, fld.validate value = Except.error (PyError.validationError msg)) := by
  unfold FixedCurrencyFormField.validate
  by_cases h : value.id = fld.currency.id <;> simp [h]

/-- C10 witness: a string distinct from, but textually equal to, the field's
fixed currency object is rejected. -/
theorem fixed_currency_validate_identity_witness :
    ∃ msg, FixedCurrencyFormField.validate ⟨⟨0, "EUR"⟩⟩ ⟨1, "EUR"⟩ =
      Except.error (PyError.validationError msg) :=
  (fixed_currency_validate_identity ⟨⟨0, "EUR"⟩⟩ ⟨1, "EUR"⟩).2 (by decide)

/-- A form field of `base_fields`: one generated from an ordinary model
column, or the multivalue money form field built by `formfield()`. -/
inductive FormField where
  | base (tag : Nat)
  | moneyMulti (fieldName : String)
deriving DecidableEq, Repr

/-- What the form metaclass reads off one `MoneyField`: its logical name,
its `amount_attr` and its `currency_attr`. -/
structure MFieldInfo where
  name : String
  amount_attr : String
  currency_attr : Option String
deriving DecidableEq, Repr

/-- Call `money_field.formfield()` as the metaclass uses it: the multivalue money
form field for the logical field. -/
def MFieldInfo.formfield (mf : MFieldInfo) : FormField :=
  FormField.moneyMulti mf.name

/-- The inner `for money_field in money_fields` loop of
`MoneyModelFormMetaclass.__new__`, for one `base_fields` entry:
`none` means the loop fell through without `break` (keep the entry),
`some none` means it broke on a currency sub-field match (drop the entry),
`some (some e)` means it broke on an amount sub-field match (emit `e`). -/
def moneyFieldScan (mfs : List MFieldInfo) (field_name : String) :
    Option (Option (String × FormField)) :=
  match mfs with
  | [] => Option.none
  | mf :: rest =>
      if field_name = mf.amount_attr then
        some (some (mf.name, mf.formfield))
      else if some field_name = mf.currency_attr then
        some Option.none
      else
        moneyFieldScan rest field_name

/-- The field-dict rebuild of `MoneyModelFormMetaclass.__new__`: walk
`base_fields` in order, replacing an amount sub-field in place by the money
form field under the logical name, dropping a currency sub-field, and
keeping everything else. -/
def rebuildFields (mfs : List MFieldInfo) :
    List (String × FormField) → List (String × FormField)
  | [] => []
  | (n, fld) :: rest =>
      match moneyFieldScan mfs n with
      | Option.none => (n, fld) :: rebuildFields mfs rest
      | some Option.none => rebuildFields mfs rest
      | some (some e) => e :: rebuildFields mfs rest

/-- The claim's description of the fate of one entry, written from the spec:
the entry for an amount sub-field becomes that money field's multivalue form
field under the logical field name, the entry for a currency sub-field is
removed, and every other entry is kept unchanged. -/
def specEntry (mfs : List MFieldInfo) (e : String × FormField) :
    Option (String × FormField) :=
  match mfs.find? (fun mf => decide (e.1 = mf.amount_attr)) with
  | some mf => some (mf.name, mf.formfield)
  | Option.none =>
      if mfs.any (fun mf => decide (some e.1 = mf.currency_attr)) then
        Option.none
      else
        some e

/-- When no field name is simultaneously a currency sub-field name of one
money field and an amount sub-field name of another, the code's first-match
scan agrees with the claim's description of a single entry. -/
theorem moneyFieldScan_spec (mfs : List MFieldInfo) (n : String) (fld : FormField)
    (hdisj : ∀ mf1 ∈ mfs, ∀ mf2 ∈ mfs, mf1.currency_attr ≠ some mf2.amount_attr) :
    (match moneyFieldScan mfs n with
     | Option.none => some (n, fld)
     | some r => r) = specEntry mfs (n, fld) := by
  induction mfs with
  | nil => rfl
  | cons mf rest ih =>
      by_cases ha : n = mf.amount_attr
      · simp [moneyFieldScan, specEntry, List.find?_cons, ha]
      · by_cases hc : some n = mf.currency_attr
        · have hrest : ∀ mf2 ∈ rest, ¬ n = mf2.amount_attr := by
            intro mf2 hmem heq
            exact hdisj mf (List.mem_cons_self mf rest) mf2
              (List.mem_cons_of_mem mf hmem) (by rw [← hc, heq])
          have hfind : (mf :: rest).find?
              (fun mf => decide (n = mf.amount_attr)) = Option.none := by
            rw [List.find?_eq_none]
            intro x hx
            rcases List.mem_cons.mp hx with h | h
            · subst h
              simpa using ha
            · simpa using hrest x h
          simp [moneyFieldScan, specEntry, ha, hc, hfind]
        · have hdisj2 : ∀ mf1 ∈ rest, ∀ mf2 ∈ rest,
              mf1.currency_attr ≠ some mf2.amount_attr := by
            intro mf1 h1 mf2 h2
            exact hdisj mf1 (List.mem_cons_of_mem mf h1) mf2
              (List.mem_cons_of_mem mf h2)
          have := ih hdisj2
          simpa [moneyFieldScan, specEntry, ha, hc, List.find?_cons] using this

/-- C6: under distinct amount/currency sub-field names, the rebuilt form
field dict is the original `base_fields` with each amount sub-field entry
replaced in place by the money field's multivalue form field under the
logical name, each currency sub-field entry removed, and all other entries
kept unchanged in their original order. -/
theorem form_fields_rebuild (mfs : List MFieldInfo)
    (base : List (String × FormField))
    (hdisj : ∀ mf1 ∈ mfs, ∀ mf2 ∈ mfs, mf1.currency_attr ≠ some mf2.amount_attr) :
    rebuildFields mfs base = base.filterMap (specEntry mfs) := by
  induction base with
  | nil => rfl
  | cons e rest ih =>
      obtain ⟨n, fld⟩ := e
      have hspec := moneyFieldScan_spec mfs n fld hdisj
      rw [List.filterMap_cons, ← hspec]
      cases hscan : moneyFieldScan mfs n with
      | none => simp [rebuildFields, hscan, ih]
      | some r =>
          cases r with
          | none => simp [rebuildFields, hscan, ih]
          | some e2 => simp [rebuildFields, hscan, ih]

/-- C6 witness: a model form over one money field "price" with an ordinary
"name" field: the amount entry is replaced in place, the currency entry is
dropped, the rest is kept. -/
theorem form_fields_rebuild_witness :
    rebuildFields [⟨"price", "price_amount", some "price_currency"⟩]
      [("name", FormField.base 0), ("price_amount", FormField.base 1),
       ("price_currency", FormField.base 2)] =
    List.filterMap (specEntry [⟨"price", "price_amount", some "price_currency"⟩])
      [("name", FormField.base 0), ("price_amount", FormField.base 1),
       ("price_currency", FormField.base 2)] :=
  form_fields_rebuild [⟨"price", "price_amount", some "price_currency"⟩]
    [("name", FormField.base 0), ("price_amount", FormField.base 1),
     ("price_currency", FormField.base 2)] (by decide)

end Moneyfield
